import Mathlib

/-!
Verification of the conn-stream layer of `include/haproxy/conn_stream.h`.

The header's inline functions are shallowly embedded as pure Lean functions.
The record types and flag constants they use (`struct conn_stream`,
`struct cs_endpoint`, the `CS_EP_*` flag bits, the shutdown mode enums and
the mux operation table) are declared in headers that are not part of the
given sources (`conn_stream-t.h`, `connection-t.h`, `obj_type-t.h`), so they
are modelled from the specification; each such definition carries a doc
comment saying so.  Flags are a `Nat` bit set with distinct power-of-two
bits, mirroring the C bitmask idiom.

Multiplexer callbacks (`mux->shutr`, `mux->shutw`) are external
collaborators: the layer only tests the function pointer for presence and
invokes it.  The embedding models a callback slot as a presence flag and
makes every invocation observable as an event in a returned trace; each
event records the endpoint flags at the moment of the call, which is what
the callback can observe of this layer's state.
-/

/-- Modelled from the spec: the presence of an endpoint-kind discriminant
bit `CS_EP_T_MUX` marking a mux-backed endpoint (`conn_stream-t.h` is not
among the given sources).  Value as in the C bit set: a power of two
distinct from every other flag. -/
def CS_EP_T_MUX : Nat := 0x00000001

/-- Modelled from the spec: endpoint-kind discriminant bit `CS_EP_T_APPLET`
marking an applet endpoint. -/
def CS_EP_T_APPLET : Nat := 0x00000002

/-- Modelled from the spec: shutdown-read flag `CS_EP_SHRD` (read shut,
draining remaining data). -/
def CS_EP_SHRD : Nat := 0x00000100

/-- Modelled from the spec: shutdown-read flag `CS_EP_SHRR` (read shut,
resetting remaining data). -/
def CS_EP_SHRR : Nat := 0x00000200

/-- Modelled from the spec: `CS_EP_SHR`, the union of both shutdown-read
bits, used to test whether read shutdown already happened. -/
def CS_EP_SHR : Nat := CS_EP_SHRD ||| CS_EP_SHRR

/-- Modelled from the spec: shutdown-write flag `CS_EP_SHWN` (write shut,
normal mode). -/
def CS_EP_SHWN : Nat := 0x00000400

/-- Modelled from the spec: shutdown-write flag `CS_EP_SHWS` (write shut,
silent mode). -/
def CS_EP_SHWS : Nat := 0x00000800

/-- Modelled from the spec: `CS_EP_SHW`, the union of both shutdown-write
bits. -/
def CS_EP_SHW : Nat := CS_EP_SHWN ||| CS_EP_SHWS

/-- Modelled from the spec: pending-error flag `CS_EP_ERR_PENDING` (error
reported before end of stream was seen). -/
def CS_EP_ERR_PENDING : Nat := 0x00001000

/-- Modelled from the spec: confirmed-error flag `CS_EP_ERROR`. -/
def CS_EP_ERROR : Nat := 0x00002000

/-- Modelled from the spec: end-of-stream flag `CS_EP_EOS`. -/
def CS_EP_EOS : Nat := 0x00008000

/-- Modelled from the spec: `enum co_shr_mode`, the read-shutdown modes
(`connection-t.h` is not among the given sources). -/
inductive co_shr_mode where
  | CO_SHR_DRAIN
  | CO_SHR_RESET
deriving DecidableEq, Repr

/-- Modelled from the spec: `enum co_shw_mode`, the write-shutdown modes. -/
inductive co_shw_mode where
  | CO_SHW_NORMAL
  | CO_SHW_SILENT
deriving DecidableEq, Repr

/-- Modelled from the spec: the multiplexer operation table `struct mux_ops`.
`shutr`/`shutw` record whether the corresponding callback pointer is
non-NULL (the callbacks themselves are external collaborators, observed
through the event trace).  `get_first_cs`, when present, is the result the
mux returns for its connection: `none` models a table without the
capability, `some r` a table whose capability returns `r` (itself `none`
when the mux has no valid conn-stream).  Conn-stream results of the
external mux are opaque pointers, modelled as `Nat` identifiers. -/
structure mux_ops where
  shutr : Bool
  shutw : Bool
  get_first_cs : Option (Option Nat)
deriving DecidableEq, Repr

/-- Modelled from the spec: the external `struct connection`, of which this
layer only reads the `mux` operation-table pointer. -/
structure connection where
  mux : Option mux_ops
deriving DecidableEq, Repr

/-- Modelled from the spec: the endpoint descriptor `struct cs_endpoint`:
an opaque `target` pointer, a `ctx` pointer (the connection itself when the
endpoint is mux-backed) and the `flags` bit set. -/
structure cs_endpoint where
  target : Option Nat
  ctx : Option connection
  flags : Nat
deriving DecidableEq, Repr

/-- Modelled from the spec: the application-side object the conn-stream's
`app` pointer designates, carrying its object-type discriminant: a proxy
stream or a health check (payloads are opaque `Nat` identifiers). -/
inductive app_obj where
  | strm (s : Nat)
  | check (c : Nat)
deriving DecidableEq, Repr

/-- Modelled from the spec: the object-type discriminant `enum obj_type`
restricted to the tags this layer narrows on (`obj_type-t.h` is not among
the given sources). -/
inductive ObjType where
  | OBJ_TYPE_NONE
  | OBJ_TYPE_STREAM
  | OBJ_TYPE_CHECK
deriving DecidableEq, Repr

/-- Modelled from the spec: `obj_type(t)` returns the tag of the pointed-to
object, `OBJ_TYPE_NONE` for a NULL pointer. -/
def obj_type (app : Option app_obj) : ObjType :=
  match app with
  | none => ObjType.OBJ_TYPE_NONE
  | some (app_obj.strm _) => ObjType.OBJ_TYPE_STREAM
  | some (app_obj.check _) => ObjType.OBJ_TYPE_CHECK

/-- Modelled from the spec: the data-callback table `struct data_cb`, of
which this layer only reads the diagnostic `name`. -/
structure data_cb_t where
  name : String
deriving DecidableEq, Repr

/-- Modelled from the spec: `struct conn_stream`: the owned endpoint
descriptor, the application back-reference with its type tag, the
data-callback table reference and the stream-interface pointer (opaque). -/
structure conn_stream where
  endp : cs_endpoint
  app : Option app_obj
  data_cb : Option data_cb_t
  si : Option Nat
deriving DecidableEq, Repr

/-- `__cs_endp_target`: returns the endpoint target without any control. -/
def __cs_endp_target (cs : conn_stream) : Option Nat :=
  cs.endp.target

/-- `__cs_endp_ctx`: returns the endpoint context without any control. -/
def __cs_endp_ctx (cs : conn_stream) : Option connection :=
  cs.endp.ctx

/-- `__cs_conn`: returns the connection without any control. -/
def __cs_conn (cs : conn_stream) : Option connection :=
  __cs_endp_ctx cs

/-- `cs_conn`: returns the connection from a cs if the endpoint is a mux
stream, otherwise NULL. -/
def cs_conn (cs : conn_stream) : Option connection :=
  if cs.endp.flags &&& CS_EP_T_MUX ≠ 0 then __cs_conn cs
  else none

/-- `cs_conn_mux`: returns the mux ops of the connection from a cs if the
endpoint is a mux stream, otherwise NULL. -/
def cs_conn_mux (cs : conn_stream) : Option mux_ops :=
  match cs_conn cs with
  | some conn => conn.mux
  | none => none

/-- `__cs_mux`: returns the mux without any control. -/
def __cs_mux (cs : conn_stream) : Option Nat :=
  __cs_endp_target cs

/-- `cs_mux`: returns the mux from a cs if the endpoint is a mux, otherwise
NULL. -/
def cs_mux (cs : conn_stream) : Option Nat :=
  if cs.endp.flags &&& CS_EP_T_MUX ≠ 0 then __cs_mux cs
  else none

/-- `__cs_appctx`: returns the appctx without any control. -/
def __cs_appctx (cs : conn_stream) : Option Nat :=
  __cs_endp_target cs

/-- `cs_appctx`: returns the appctx from a cs if the endpoint is an appctx,
otherwise NULL. -/
def cs_appctx (cs : conn_stream) : Option Nat :=
  if cs.endp.flags &&& CS_EP_T_APPLET ≠ 0 then __cs_appctx cs
  else none

/-- `__objt_stream`: unchecked narrowing of an object pointer to a stream
(defined on the matching case; the C cast's behaviour on a mismatched tag
is undefined and unreachable from the checked accessor). -/
def __objt_stream (app : Option app_obj) : Option Nat :=
  match app with
  | some (app_obj.strm s) => some s
  | _ => none

/-- `__objt_check`: unchecked narrowing of an object pointer to a health
check (defined on the matching case). -/
def __objt_check (app : Option app_obj) : Option Nat :=
  match app with
  | some (app_obj.check c) => some c
  | _ => none

/-- `__cs_strm`: returns the stream without any control. -/
def __cs_strm (cs : conn_stream) : Option Nat :=
  __objt_stream cs.app

/-- `cs_strm`: returns the stream from a cs if the application is a stream,
otherwise NULL. -/
def cs_strm (cs : conn_stream) : Option Nat :=
  if obj_type cs.app = ObjType.OBJ_TYPE_STREAM then __cs_strm cs
  else none

/-- `__cs_check`: returns the healthcheck without any control. -/
def __cs_check (cs : conn_stream) : Option Nat :=
  __objt_check cs.app

/-- `cs_check`: returns the healthcheck from a cs if the application is a
healthcheck, otherwise NULL. -/
def cs_check (cs : conn_stream) : Option Nat :=
  if obj_type cs.app = ObjType.OBJ_TYPE_CHECK then __objt_check cs.app
  else none

/-- `cs_si`: returns the stream-interface from a cs. -/
def cs_si (cs : conn_stream) : Option Nat :=
  cs.si

/-- `cs_get_data_name`: returns "NONE" when no data-callback table is
attached, else the table's name. -/
def cs_get_data_name (cs : conn_stream) : String :=
  match cs.data_cb with
  | none => "NONE"
  | some d => d.name

/-- Observable invocation of an external mux callback; each event records
the endpoint flags at the moment of the call, which is the layer state the
callback can observe, and the mode it was passed. -/
inductive cs_event where
  | evShutr (flagsAtCall : Nat) (mode : co_shr_mode)
  | evShutw (flagsAtCall : Nat) (mode : co_shw_mode)
deriving DecidableEq, Repr

/-- `cs_shutr`: shut read.  Returns the updated conn-stream and the trace
of mux-callback invocations. -/
def cs_shutr (cs : conn_stream) (mode : co_shr_mode) :
    conn_stream × List cs_event :=
  if cs_conn cs = none ∨ cs.endp.flags &&& CS_EP_SHR ≠ 0 then (cs, [])
  else
    let trace : List cs_event :=
      match cs_conn_mux cs with
      | some mux => if mux.shutr then [cs_event.evShutr cs.endp.flags mode] else []
      | none => []
    let bit := if mode = co_shr_mode.CO_SHR_DRAIN then CS_EP_SHRD else CS_EP_SHRR
    ({ cs with endp := { cs.endp with flags := cs.endp.flags ||| bit } }, trace)

/-- `cs_shutw`: shut write.  Returns the updated conn-stream and the trace
of mux-callback invocations. -/
def cs_shutw (cs : conn_stream) (mode : co_shw_mode) :
    conn_stream × List cs_event :=
  if cs_conn cs = none ∨ cs.endp.flags &&& CS_EP_SHW ≠ 0 then (cs, [])
  else
    let trace : List cs_event :=
      match cs_conn_mux cs with
      | some mux => if mux.shutw then [cs_event.evShutw cs.endp.flags mode] else []
      | none => []
    let bit := if mode = co_shw_mode.CO_SHW_NORMAL then CS_EP_SHWN else CS_EP_SHWS
    ({ cs with endp := { cs.endp with flags := cs.endp.flags ||| bit } }, trace)

/-- `cs_close`: completely close a conn_stream (but do not detach it):
shut write silently, then shut read with reset. -/
def cs_close (cs : conn_stream) : conn_stream × List cs_event :=
  let r1 := cs_shutw cs co_shw_mode.CO_SHW_SILENT
  let r2 := cs_shutr r1.1 co_shr_mode.CO_SHR_RESET
  (r2.1, r1.2 ++ r2.2)

/-- `cs_drain_and_close`: completely close a conn_stream after draining
possibly pending data: shut write silently, then shut read with drain. -/
def cs_drain_and_close (cs : conn_stream) : conn_stream × List cs_event :=
  let r1 := cs_shutw cs co_shw_mode.CO_SHW_SILENT
  let r2 := cs_shutr r1.1 co_shr_mode.CO_SHR_DRAIN
  (r2.1, r1.2 ++ r2.2)

/-- `cs_set_error`: sets CS_EP_ERROR if CS_EP_EOS is already present,
otherwise CS_EP_ERR_PENDING. -/
def cs_set_error (cs : conn_stream) : conn_stream :=
  if cs.endp.flags &&& CS_EP_EOS ≠ 0 then
    { cs with endp := { cs.endp with flags := cs.endp.flags ||| CS_EP_ERROR } }
  else
    { cs with endp := { cs.endp with flags := cs.endp.flags ||| CS_EP_ERR_PENDING } }

/-- `cs_get_first`: retrieves any valid conn_stream from this connection.
NULL if the connection is NULL, has no mux, the mux has no `get_first_cs`
method, or the mux reports no valid conn-stream. -/
def cs_get_first (conn : Option connection) : Option Nat :=
  match conn with
  | none => none
  | some c =>
    match c.mux with
    | none => none
    | some m =>
      match m.get_first_cs with
      | none => none
      | some r => r

/-! ### Concrete fixtures used by witness theorems -/

/-- A mux operation table exposing every capability; `get_first_cs` reports
the conn-stream with identifier 7. -/
def exMuxOps : mux_ops := ⟨true, true, some (some 7)⟩

/-- A connection carrying `exMuxOps`. -/
def exConn : connection := ⟨some exMuxOps⟩

/-- A conn-stream with a live mux endpoint, a stream application, a named
data-callback table and a stream interface. -/
def exCsMux : conn_stream :=
  ⟨⟨some 5, some exConn, CS_EP_T_MUX⟩, some (app_obj.strm 3), some ⟨"H1"⟩, some 1⟩

/-- A conn-stream between attachments: no endpoint kind, no application. -/
def exCsEmpty : conn_stream := ⟨⟨none, none, 0⟩, none, none, none⟩

/-- A detached conn-stream whose endpoint has seen end of stream. -/
def exCsEos : conn_stream := ⟨⟨none, none, CS_EP_EOS⟩, none, none, none⟩

/-- A mux operation table with no capability at all. -/
def exMuxBare : mux_ops := ⟨false, false, none⟩

/-- A connection whose mux table has no capability. -/
def exConnBare : connection := ⟨some exMuxBare⟩

/-- A conn-stream whose live mux connection has a capability-free table. -/
def exCsMuxBare : conn_stream := ⟨⟨some 5, some exConnBare, CS_EP_T_MUX⟩, none, none, none⟩

/-- An applet-backed conn-stream whose application is a health check. -/
def exCsApplet : conn_stream :=
  ⟨⟨some 9, none, CS_EP_T_APPLET⟩, some (app_obj.check 4), none, none⟩

/-- A mux-backed conn-stream already shut in both directions (drained read,
silent write). -/
def exCsShut : conn_stream :=
  ⟨⟨some 5, some exConn, CS_EP_T_MUX ||| CS_EP_SHRD ||| CS_EP_SHWS⟩, none, none, none⟩

/-- `b` agrees with `a` on every conn-stream field except possibly the
endpoint flags: endpoint target and ctx pointers, application
back-reference (hence its type tag), data-callback table and
stream-interface are identical. -/
def eq_except_flags (a b : conn_stream) : Prop :=
  b.endp.target = a.endp.target ∧ b.endp.ctx = a.endp.ctx ∧
  b.app = a.app ∧ b.data_cb = a.data_cb ∧ b.si = a.si

/-! ### Bit-set helper lemmas -/

/-- AND distributes over OR on `Nat` bit sets. -/
lemma nat_or_and_right (a b c : Nat) : (a ||| b) &&& c = (a &&& c) ||| (b &&& c) := by
  apply Nat.eq_of_testBit_eq
  intro i
  rw [Nat.testBit_and, Nat.testBit_or, Nat.testBit_or, Nat.testBit_and, Nat.testBit_and]
  cases a.testBit i <;> cases b.testBit i <;> cases c.testBit i <;> rfl

/-- OR-ing in bits disjoint from a mask leaves the masked value unchanged. -/
lemma or_and_of_disjoint (f b m : Nat) (hb : b &&& m = 0) :
    (f ||| b) &&& m = f &&& m := by
  rw [nat_or_and_right, hb, Nat.or_zero]

/-- A nonzero masked value stays nonzero after OR-ing in further bits. -/
lemma or_and_ne_zero_left (f b m : Nat) (h : f &&& m ≠ 0) :
    (f ||| b) &&& m ≠ 0 := by
  rw [nat_or_and_right]
  intro hz
  apply h
  apply Nat.eq_of_testBit_eq
  intro i
  have hb : ((f &&& m) ||| (b &&& m)).testBit i = false := by
    rw [hz]; exact Nat.zero_testBit i
  rw [Nat.testBit_or] at hb
  rw [Nat.zero_testBit]
  exact (Bool.or_eq_false_iff.mp hb).1

/-- OR-ing in a bit the mask contains makes the masked value nonzero. -/
lemma or_and_ne_zero_bit (f b m i : Nat) (hb : b.testBit i = true)
    (hm : m.testBit i = true) : (f ||| b) &&& m ≠ 0 := by
  intro h
  have ht : ((f ||| b) &&& m).testBit i = true := by
    rw [Nat.testBit_and, Nat.testBit_or, hb, hm]
    cases f.testBit i <;> rfl
  rw [h, Nat.zero_testBit] at ht
  exact Bool.false_ne_true ht

/-! ### Claim theorems -/

/-- C1: every checked narrowing accessor returns none when its discriminant
does not match: `cs_conn`, `cs_conn_mux` and `cs_mux` are none without the
MUX kind bit, `cs_appctx` is none without the APPLET kind bit, `cs_strm` is
none unless the application tag is STREAM, and `cs_check` is none unless it
is CHECK — for every conn-stream, hence for all combinations of endpoint
kind {MUX, APPLET, none} and application tag {STREAM, CHECK, NONE}. -/
theorem cs_accessors_none_on_mismatch (cs : conn_stream) :
    (cs.endp.flags &&& CS_EP_T_MUX = 0 →
      cs_conn cs = none ∧ cs_conn_mux cs = none ∧ cs_mux cs = none) ∧
    (cs.endp.flags &&& CS_EP_T_APPLET = 0 → cs_appctx cs = none) ∧
    (obj_type cs.app ≠ ObjType.OBJ_TYPE_STREAM → cs_strm cs = none) ∧
    (obj_type cs.app ≠ ObjType.OBJ_TYPE_CHECK → cs_check cs = none) := by
  refine ⟨fun h => ?_, fun h => ?_, fun h => ?_, fun h => ?_⟩
  · simp [cs_conn, cs_conn_mux, cs_mux, h]
  · simp [cs_appctx, h]
  · simp [cs_strm, h]
  · simp [cs_check, h]

/-- C1 witness: the accessors evaluated on a kind-free, application-free
conn-stream and on an applet-backed, check-tagged conn-stream. -/
theorem cs_accessors_none_on_mismatch_witness :
    cs_conn exCsEmpty = none ∧ cs_conn_mux exCsEmpty = none ∧
    cs_mux exCsEmpty = none ∧ cs_appctx exCsEmpty = none ∧
    cs_strm exCsEmpty = none ∧ cs_check exCsEmpty = none ∧
    cs_conn exCsApplet = none ∧ cs_strm exCsApplet = none := by
  have h1 := cs_accessors_none_on_mismatch exCsEmpty
  have h2 := cs_accessors_none_on_mismatch exCsApplet
  exact ⟨(h1.1 (by decide)).1, (h1.1 (by decide)).2.1, (h1.1 (by decide)).2.2,
    h1.2.1 (by decide), h1.2.2.1 (by decide), h1.2.2.2 (by decide),
    (h2.1 (by decide)).1, h2.2.2.1 (by decide)⟩

/-- C7: `cs_get_first` returns none when the connection is none, when it
has no mux, or when the mux table lacks `get_first_cs`; when all three are
present it returns exactly the capability's result. -/
theorem cs_get_first_delegation (oc : Option connection) :
    (oc = none → cs_get_first oc = none) ∧
    (∀ c, oc = some c → c.mux = none → cs_get_first oc = none) ∧
    (∀ c m, oc = some c → c.mux = some m → m.get_first_cs = none →
      cs_get_first oc = none) ∧
    (∀ c m r, oc = some c → c.mux = some m → m.get_first_cs = some r →
      cs_get_first oc = r) := by
  refine ⟨fun h => ?_, fun c hc hm => ?_, fun c m hc hm hg => ?_,
    fun c m r hc hm hg => ?_⟩
  · simp [cs_get_first, h]
  · simp [cs_get_first, hc, hm]
  · simp [cs_get_first, hc, hm, hg]
  · simp [cs_get_first, hc, hm, hg]

/-- C7 witness: the delegation case on a connection whose mux reports
conn-stream 7, and the absent-connection case. -/
theorem cs_get_first_delegation_witness :
    cs_get_first (some exConn) = some 7 ∧ cs_get_first none = none ∧
    cs_get_first (some exConnBare) = none := by
  refine ⟨(cs_get_first_delegation (some exConn)).2.2.2 exConn exMuxOps
      (some 7) rfl rfl rfl,
    (cs_get_first_delegation (none : Option connection)).1 rfl,
    (cs_get_first_delegation (some exConnBare)).2.2.1 exConnBare exMuxBare
      rfl rfl rfl⟩

/-- C10: `cs_get_data_name` never fails: it returns the literal "NONE"
when no data-callback table is attached, and the table's recorded name
otherwise. -/
theorem cs_get_data_name_total (cs : conn_stream) :
    (cs.data_cb = none → cs_get_data_name cs = "NONE") ∧
    (∀ d, cs.data_cb = some d → cs_get_data_name cs = d.name) := by
  refine ⟨fun h => ?_, fun d hd => ?_⟩
  · simp [cs_get_data_name, h]
  · simp [cs_get_data_name, hd]

/-- C10 witness: the name on a conn-stream without a table and on one whose
table is named "H1". -/
theorem cs_get_data_name_total_witness :
    cs_get_data_name exCsEmpty = "NONE" ∧ cs_get_data_name exCsMux = "H1" := by
  exact ⟨(cs_get_data_name_total exCsEmpty).1 rfl,
    (cs_get_data_name_total exCsMux).2 ⟨"H1"⟩ rfl⟩

/-! ### Shutdown-machinery helper lemmas -/

/-- `cs_shutr` does nothing when the guard holds: no mux-backed connection,
or read already shut. -/
lemma cs_shutr_guard (cs : conn_stream) (mode : co_shr_mode)
    (h : cs_conn cs = none ∨ cs.endp.flags &&& CS_EP_SHR ≠ 0) :
    cs_shutr cs mode = (cs, []) := by
  unfold cs_shutr
  rw [if_pos h]

/-- `cs_shutw` does nothing when the guard holds: no mux-backed connection,
or write already shut. -/
lemma cs_shutw_guard (cs : conn_stream) (mode : co_shw_mode)
    (h : cs_conn cs = none ∨ cs.endp.flags &&& CS_EP_SHW ≠ 0) :
    cs_shutw cs mode = (cs, []) := by
  unfold cs_shutw
  rw [if_pos h]

/-- `cs_shutr` on an open, mux-backed conn-stream: the callback (if any)
fires with the pre-transition flags and the matching read-shut bit is set. -/
lemma cs_shutr_open (cs : conn_stream) (mode : co_shr_mode)
    (hc : cs_conn cs ≠ none) (hf : cs.endp.flags &&& CS_EP_SHR = 0) :
    cs_shutr cs mode =
      ({ cs with endp := { cs.endp with flags := cs.endp.flags |||
          (if mode = co_shr_mode.CO_SHR_DRAIN then CS_EP_SHRD else CS_EP_SHRR) } },
       match cs_conn_mux cs with
       | some mux => if mux.shutr then [cs_event.evShutr cs.endp.flags mode] else []
       | none => []) := by
  unfold cs_shutr
  rw [if_neg (not_or.mpr ⟨hc, not_not_intro hf⟩)]

/-- `cs_shutw` on an open, mux-backed conn-stream. -/
lemma cs_shutw_open (cs : conn_stream) (mode : co_shw_mode)
    (hc : cs_conn cs ≠ none) (hf : cs.endp.flags &&& CS_EP_SHW = 0) :
    cs_shutw cs mode =
      ({ cs with endp := { cs.endp with flags := cs.endp.flags |||
          (if mode = co_shw_mode.CO_SHW_NORMAL then CS_EP_SHWN else CS_EP_SHWS) } },
       match cs_conn_mux cs with
       | some mux => if mux.shutw then [cs_event.evShutw cs.endp.flags mode] else []
       | none => []) := by
  unfold cs_shutw
  rw [if_neg (not_or.mpr ⟨hc, not_not_intro hf⟩)]

/-- The bit `cs_shutr` sets lies inside the `CS_EP_SHR` mask. -/
lemma shr_bit_in_mask (f : Nat) (mode : co_shr_mode) :
    (f ||| (if mode = co_shr_mode.CO_SHR_DRAIN then CS_EP_SHRD else CS_EP_SHRR))
      &&& CS_EP_SHR ≠ 0 := by
  cases mode
  · rw [if_pos rfl]
    exact or_and_ne_zero_bit f CS_EP_SHRD CS_EP_SHR 8 (by decide) (by decide)
  · rw [if_neg (by decide)]
    exact or_and_ne_zero_bit f CS_EP_SHRR CS_EP_SHR 9 (by decide) (by decide)

/-- The bit `cs_shutw` sets lies inside the `CS_EP_SHW` mask. -/
lemma shw_bit_in_mask (f : Nat) (mode : co_shw_mode) :
    (f ||| (if mode = co_shw_mode.CO_SHW_NORMAL then CS_EP_SHWN else CS_EP_SHWS))
      &&& CS_EP_SHW ≠ 0 := by
  cases mode
  · rw [if_pos rfl]
    exact or_and_ne_zero_bit f CS_EP_SHWN CS_EP_SHW 10 (by decide) (by decide)
  · rw [if_neg (by decide)]
    exact or_and_ne_zero_bit f CS_EP_SHWS CS_EP_SHW 11 (by decide) (by decide)

/-- OR-ing flag bits outside the MUX kind bit does not change `cs_conn`. -/
lemma cs_conn_flags_or (cs : conn_stream) (b : Nat) (hb : b &&& CS_EP_T_MUX = 0) :
    cs_conn { cs with endp := { cs.endp with flags := cs.endp.flags ||| b } } =
      cs_conn cs := by
  simp only [cs_conn, __cs_conn, __cs_endp_ctx]
  rw [or_and_of_disjoint _ _ _ hb]

/-- `cs_conn_mux` only depends on `cs_conn`. -/
lemma cs_conn_mux_congr (cs cs2 : conn_stream) (h : cs_conn cs2 = cs_conn cs) :
    cs_conn_mux cs2 = cs_conn_mux cs := by
  unfold cs_conn_mux
  rw [h]

/-- C2: on a conn-stream whose `cs_conn` is none (no endpoint attached, or
the endpoint is not a mux-backed connection), `cs_shutr`, `cs_shutw`,
`cs_close` and `cs_drain_and_close` invoke no capability and return the
conn-stream with every field unchanged. -/
theorem cs_ops_noop_without_conn (cs : conn_stream) (h : cs_conn cs = none) :
    (∀ rmode, cs_shutr cs rmode = (cs, [])) ∧
    (∀ wmode, cs_shutw cs wmode = (cs, [])) ∧
    cs_close cs = (cs, []) ∧
    cs_drain_and_close cs = (cs, []) := by
  have hr : ∀ rmode, cs_shutr cs rmode = (cs, []) :=
    fun rmode => cs_shutr_guard cs rmode (Or.inl h)
  have hw : ∀ wmode, cs_shutw cs wmode = (cs, []) :=
    fun wmode => cs_shutw_guard cs wmode (Or.inl h)
  refine ⟨hr, hw, ?_, ?_⟩
  · simp [cs_close, hw, hr]
  · simp [cs_drain_and_close, hw, hr]

/-- C2 witness: the four operations on a detached conn-stream and on an
applet-backed one. -/
theorem cs_ops_noop_without_conn_witness :
    cs_close exCsEmpty = (exCsEmpty, []) ∧
    cs_drain_and_close exCsEmpty = (exCsEmpty, []) ∧
    cs_shutr exCsApplet co_shr_mode.CO_SHR_RESET = (exCsApplet, []) ∧
    cs_shutw exCsApplet co_shw_mode.CO_SHW_NORMAL = (exCsApplet, []) := by
  have h1 := cs_ops_noop_without_conn exCsEmpty (by decide)
  have h2 := cs_ops_noop_without_conn exCsApplet (by decide)
  exact ⟨h1.2.2.1, h1.2.2.2, h2.1 _, h2.2.1 _⟩

/-- C3: shutdown is idempotent per axis and its flags monotonic: with a
read-shut flag already set, `cs_shutr` with any mode changes nothing and
fires no callback, and a second `cs_shutr` right after a first one (same or
different mode) is always such a no-op; symmetrically for `cs_shutw`; and
neither call ever clears a set flag bit, so a set shutdown bit is never
overwritten and the capability fires at most once per axis. -/
theorem cs_shut_flags_idempotent (cs : conn_stream) (rm rm2 : co_shr_mode)
    (wm wm2 : co_shw_mode) :
    (cs.endp.flags &&& CS_EP_SHR ≠ 0 → cs_shutr cs rm = (cs, [])) ∧
    cs_shutr (cs_shutr cs rm).1 rm2 = ((cs_shutr cs rm).1, []) ∧
    (cs.endp.flags &&& CS_EP_SHW ≠ 0 → cs_shutw cs wm = (cs, [])) ∧
    cs_shutw (cs_shutw cs wm).1 wm2 = ((cs_shutw cs wm).1, []) ∧
    (∀ mask, cs.endp.flags &&& mask ≠ 0 →
      (cs_shutr cs rm).1.endp.flags &&& mask ≠ 0) ∧
    (∀ mask, cs.endp.flags &&& mask ≠ 0 →
      (cs_shutw cs wm).1.endp.flags &&& mask ≠ 0) := by
  have hmr : ∀ mask, cs.endp.flags &&& mask ≠ 0 →
      (cs_shutr cs rm).1.endp.flags &&& mask ≠ 0 := by
    intro mask hm
    by_cases h : cs_conn cs = none ∨ cs.endp.flags &&& CS_EP_SHR ≠ 0
    · rw [cs_shutr_guard cs rm h]
      exact hm
    · have hc : cs_conn cs ≠ none := fun hx => h (Or.inl hx)
      have hf : cs.endp.flags &&& CS_EP_SHR = 0 := by
        by_contra hx
        exact h (Or.inr hx)
      rw [cs_shutr_open cs rm hc hf]
      exact or_and_ne_zero_left _ _ _ hm
  have hmw : ∀ mask, cs.endp.flags &&& mask ≠ 0 →
      (cs_shutw cs wm).1.endp.flags &&& mask ≠ 0 := by
    intro mask hm
    by_cases h : cs_conn cs = none ∨ cs.endp.flags &&& CS_EP_SHW ≠ 0
    · rw [cs_shutw_guard cs wm h]
      exact hm
    · have hc : cs_conn cs ≠ none := fun hx => h (Or.inl hx)
      have hf : cs.endp.flags &&& CS_EP_SHW = 0 := by
        by_contra hx
        exact h (Or.inr hx)
      rw [cs_shutw_open cs wm hc hf]
      exact or_and_ne_zero_left _ _ _ hm
  refine ⟨fun h => cs_shutr_guard cs rm (Or.inr h), ?_,
    fun h => cs_shutw_guard cs wm (Or.inr h), ?_, hmr, hmw⟩
  · by_cases h : cs_conn cs = none ∨ cs.endp.flags &&& CS_EP_SHR ≠ 0
    · rw [cs_shutr_guard cs rm h]
      exact cs_shutr_guard cs rm2 h
    · have hc : cs_conn cs ≠ none := fun hx => h (Or.inl hx)
      have hf : cs.endp.flags &&& CS_EP_SHR = 0 := by
        by_contra hx
        exact h (Or.inr hx)
      rw [cs_shutr_open cs rm hc hf]
      exact cs_shutr_guard _ rm2 (Or.inr (shr_bit_in_mask cs.endp.flags rm))
  · by_cases h : cs_conn cs = none ∨ cs.endp.flags &&& CS_EP_SHW ≠ 0
    · rw [cs_shutw_guard cs wm h]
      exact cs_shutw_guard cs wm2 h
    · have hc : cs_conn cs ≠ none := fun hx => h (Or.inl hx)
      have hf : cs.endp.flags &&& CS_EP_SHW = 0 := by
        by_contra hx
        exact h (Or.inr hx)
      rw [cs_shutw_open cs wm hc hf]
      exact cs_shutw_guard _ wm2 (Or.inr (shw_bit_in_mask cs.endp.flags wm))

/-- C3 witness: a second shutdown on an already-shut conn-stream changes
nothing and fires no callback, in either mode and on both axes, and a
repeated shutdown right after a successful first one is a no-op. -/
theorem cs_shut_flags_idempotent_witness :
    cs_shutr exCsShut co_shr_mode.CO_SHR_RESET = (exCsShut, []) ∧
    cs_shutw exCsShut co_shw_mode.CO_SHW_NORMAL = (exCsShut, []) ∧
    cs_shutr (cs_shutr exCsMux co_shr_mode.CO_SHR_DRAIN).1 co_shr_mode.CO_SHR_RESET =
      ((cs_shutr exCsMux co_shr_mode.CO_SHR_DRAIN).1, []) ∧
    (cs_shutr exCsShut co_shr_mode.CO_SHR_RESET).1.endp.flags &&& CS_EP_SHRD ≠ 0 := by
  have h1 := cs_shut_flags_idempotent exCsShut co_shr_mode.CO_SHR_RESET
    co_shr_mode.CO_SHR_RESET co_shw_mode.CO_SHW_NORMAL co_shw_mode.CO_SHW_NORMAL
  have h2 := cs_shut_flags_idempotent exCsMux co_shr_mode.CO_SHR_DRAIN
    co_shr_mode.CO_SHR_RESET co_shw_mode.CO_SHW_NORMAL co_shw_mode.CO_SHW_NORMAL
  exact ⟨h1.1 (by decide), h1.2.2.1 (by decide), h2.2.1,
    h1.2.2.2.2.1 CS_EP_SHRD (by decide)⟩

/-- C5: when a shutdown callback fires during `cs_shutr` (resp. `cs_shutw`),
it observes the pre-transition endpoint flags: the recorded flags are the
conn-stream's flags before the call, the mode is the requested one, and the
shutdown mask of the axis being shut is still clear at that moment. -/
theorem cs_shut_callback_sees_preflags (cs : conn_stream) (rmode : co_shr_mode)
    (wmode : co_shw_mode) :
    (∀ fac m, cs_event.evShutr fac m ∈ (cs_shutr cs rmode).2 →
      fac = cs.endp.flags ∧ m = rmode ∧ fac &&& CS_EP_SHR = 0) ∧
    (∀ fac m, cs_event.evShutw fac m ∈ (cs_shutw cs wmode).2 →
      fac = cs.endp.flags ∧ m = wmode ∧ fac &&& CS_EP_SHW = 0) := by
  constructor
  · intro fac m hm
    by_cases h : cs_conn cs = none ∨ cs.endp.flags &&& CS_EP_SHR ≠ 0
    · rw [cs_shutr_guard cs rmode h] at hm
      simp at hm
    · have hc : cs_conn cs ≠ none := fun hx => h (Or.inl hx)
      have hf : cs.endp.flags &&& CS_EP_SHR = 0 := by
        by_contra hx
        exact h (Or.inr hx)
      rw [cs_shutr_open cs rmode hc hf] at hm
      rcases hmx : cs_conn_mux cs with _ | mux
      · rw [hmx] at hm
        simp at hm
      · rw [hmx] at hm
        by_cases hs : mux.shutr = true
        · simp [hs] at hm
          exact ⟨hm.1, hm.2, by rw [hm.1]; exact hf⟩
        · simp [hs] at hm
  · intro fac m hm
    by_cases h : cs_conn cs = none ∨ cs.endp.flags &&& CS_EP_SHW ≠ 0
    · rw [cs_shutw_guard cs wmode h] at hm
      simp at hm
    · have hc : cs_conn cs ≠ none := fun hx => h (Or.inl hx)
      have hf : cs.endp.flags &&& CS_EP_SHW = 0 := by
        by_contra hx
        exact h (Or.inr hx)
      rw [cs_shutw_open cs wmode hc hf] at hm
      rcases hmx : cs_conn_mux cs with _ | mux
      · rw [hmx] at hm
        simp at hm
      · rw [hmx] at hm
        by_cases hs : mux.shutw = true
        · simp [hs] at hm
          exact ⟨hm.1, hm.2, by rw [hm.1]; exact hf⟩
        · simp [hs] at hm

/-- C5 witness: on a fresh mux-backed conn-stream the drain shutdown fires
one callback, and the flags it observes have the read-shut mask clear. -/
theorem cs_shut_callback_sees_preflags_witness :
    cs_event.evShutr CS_EP_T_MUX co_shr_mode.CO_SHR_DRAIN ∈
      (cs_shutr exCsMux co_shr_mode.CO_SHR_DRAIN).2 ∧
    CS_EP_T_MUX &&& CS_EP_SHR = 0 := by
  have hmem : cs_event.evShutr CS_EP_T_MUX co_shr_mode.CO_SHR_DRAIN ∈
      (cs_shutr exCsMux co_shr_mode.CO_SHR_DRAIN).2 := by decide
  exact ⟨hmem, ((cs_shut_callback_sees_preflags exCsMux co_shr_mode.CO_SHR_DRAIN
    co_shw_mode.CO_SHW_SILENT).1 CS_EP_T_MUX co_shr_mode.CO_SHR_DRAIN hmem).2.2⟩

/-- C8: on a live mux-backed conn-stream whose connection has no operation
table or whose table lacks the shutdown capability of the axis, a first
shutdown still succeeds: it invokes nothing, fails nothing, and sets the
local shutdown flag matching the requested mode. -/
theorem cs_shut_tolerates_missing_capability (cs : conn_stream)
    (rmode : co_shr_mode) (wmode : co_shw_mode) :
    (cs_conn cs ≠ none → cs.endp.flags &&& CS_EP_SHR = 0 →
      (cs_conn_mux cs = none ∨ ∃ m, cs_conn_mux cs = some m ∧ m.shutr = false) →
      cs_shutr cs rmode =
        ({ cs with endp := { cs.endp with flags := cs.endp.flags |||
            (if rmode = co_shr_mode.CO_SHR_DRAIN then CS_EP_SHRD else CS_EP_SHRR) } },
         [])) ∧
    (cs_conn cs ≠ none → cs.endp.flags &&& CS_EP_SHW = 0 →
      (cs_conn_mux cs = none ∨ ∃ m, cs_conn_mux cs = some m ∧ m.shutw = false) →
      cs_shutw cs wmode =
        ({ cs with endp := { cs.endp with flags := cs.endp.flags |||
            (if wmode = co_shw_mode.CO_SHW_NORMAL then CS_EP_SHWN else CS_EP_SHWS) } },
         [])) := by
  constructor
  · intro hc hf hcap
    rw [cs_shutr_open cs rmode hc hf]
    rcases hcap with hnone | ⟨m, hm, hs⟩
    · rw [hnone]
    · rw [hm]
      simp [hs]
  · intro hc hf hcap
    rw [cs_shutw_open cs wmode hc hf]
    rcases hcap with hnone | ⟨m, hm, hs⟩
    · rw [hnone]
    · rw [hm]
      simp [hs]

/-- C8 witness: both shutdowns on a conn-stream whose mux table has no
capability still set the matching local flag and fire nothing. -/
theorem cs_shut_tolerates_missing_capability_witness :
    cs_shutr exCsMuxBare co_shr_mode.CO_SHR_DRAIN =
      ({ exCsMuxBare with endp := { exCsMuxBare.endp with
          flags := exCsMuxBare.endp.flags |||
            (if co_shr_mode.CO_SHR_DRAIN = co_shr_mode.CO_SHR_DRAIN
             then CS_EP_SHRD else CS_EP_SHRR) } }, []) ∧
    cs_shutw exCsMuxBare co_shw_mode.CO_SHW_NORMAL =
      ({ exCsMuxBare with endp := { exCsMuxBare.endp with
          flags := exCsMuxBare.endp.flags |||
            (if co_shw_mode.CO_SHW_NORMAL = co_shw_mode.CO_SHW_NORMAL
             then CS_EP_SHWN else CS_EP_SHWS) } }, []) := by
  have h := cs_shut_tolerates_missing_capability exCsMuxBare
    co_shr_mode.CO_SHR_DRAIN co_shw_mode.CO_SHW_NORMAL
  exact ⟨h.1 (by decide) (by decide) (Or.inr ⟨exMuxBare, by decide, rfl⟩),
    h.2 (by decide) (by decide) (Or.inr ⟨exMuxBare, by decide, rfl⟩)⟩

/-- C4: on a conn-stream with a live mux connection exposing both shutdown
capabilities and neither axis shut, `cs_close` performs write-SILENT then
read-RESET and `cs_drain_and_close` write-SILENT then read-DRAIN: the trace
shows the write callback (with the original flags) strictly before the read
callback (with the write bit already set), and the final flags carry
write=SILENT together with read=RESET (resp. read=DRAIN). -/
theorem cs_close_composite_order (cs : conn_stream) (m : mux_ops)
    (hmux : cs_conn_mux cs = some m) (hr : m.shutr = true) (hw : m.shutw = true)
    (hfr : cs.endp.flags &&& CS_EP_SHR = 0) (hfw : cs.endp.flags &&& CS_EP_SHW = 0) :
    cs_close cs =
      ({ cs with endp := { cs.endp with
          flags := cs.endp.flags ||| CS_EP_SHWS ||| CS_EP_SHRR } },
       [cs_event.evShutw cs.endp.flags co_shw_mode.CO_SHW_SILENT,
        cs_event.evShutr (cs.endp.flags ||| CS_EP_SHWS) co_shr_mode.CO_SHR_RESET]) ∧
    cs_drain_and_close cs =
      ({ cs with endp := { cs.endp with
          flags := cs.endp.flags ||| CS_EP_SHWS ||| CS_EP_SHRD } },
       [cs_event.evShutw cs.endp.flags co_shw_mode.CO_SHW_SILENT,
        cs_event.evShutr (cs.endp.flags ||| CS_EP_SHWS) co_shr_mode.CO_SHR_DRAIN]) := by
  have hc : cs_conn cs ≠ none := by
    intro hx
    unfold cs_conn_mux at hmux
    rw [hx] at hmux
    exact Option.noConfusion hmux
  have h1 := cs_shutw_open cs co_shw_mode.CO_SHW_SILENT hc hfw
  rw [hmux] at h1
  simp only [hw, if_true, if_neg (by decide : ¬(co_shw_mode.CO_SHW_SILENT =
    co_shw_mode.CO_SHW_NORMAL))] at h1
  set cs1 : conn_stream := { cs with endp := { cs.endp with
    flags := cs.endp.flags ||| CS_EP_SHWS } } with hcs1
  have hconn1 : cs_conn cs1 = cs_conn cs :=
    cs_conn_flags_or cs CS_EP_SHWS (by decide)
  have hc1 : cs_conn cs1 ≠ none := by
    rw [hconn1]
    exact hc
  have hmux1 : cs_conn_mux cs1 = some m := by
    rw [cs_conn_mux_congr cs cs1 hconn1]
    exact hmux
  have hfr1 : cs1.endp.flags &&& CS_EP_SHR = 0 := by
    show (cs.endp.flags ||| CS_EP_SHWS) &&& CS_EP_SHR = 0
    rw [or_and_of_disjoint _ _ _ (by decide)]
    exact hfr
  have h2r := cs_shutr_open cs1 co_shr_mode.CO_SHR_RESET hc1 hfr1
  rw [hmux1] at h2r
  simp only [hr, if_true, if_neg (by decide : ¬(co_shr_mode.CO_SHR_RESET =
    co_shr_mode.CO_SHR_DRAIN))] at h2r
  have h2d := cs_shutr_open cs1 co_shr_mode.CO_SHR_DRAIN hc1 hfr1
  rw [hmux1] at h2d
  simp only [hr, if_true, if_pos (rfl : co_shr_mode.CO_SHR_DRAIN =
    co_shr_mode.CO_SHR_DRAIN)] at h2d
  constructor
  · show (let r1 := cs_shutw cs co_shw_mode.CO_SHW_SILENT
          let r2 := cs_shutr r1.1 co_shr_mode.CO_SHR_RESET
          (r2.1, r1.2 ++ r2.2)) = _
    rw [h1]
    show (let r2 := cs_shutr cs1 co_shr_mode.CO_SHR_RESET
          (r2.1, [cs_event.evShutw cs.endp.flags co_shw_mode.CO_SHW_SILENT] ++ r2.2)) = _
    rw [h2r]
    rfl
  · show (let r1 := cs_shutw cs co_shw_mode.CO_SHW_SILENT
          let r2 := cs_shutr r1.1 co_shr_mode.CO_SHR_DRAIN
          (r2.1, r1.2 ++ r2.2)) = _
    rw [h1]
    show (let r2 := cs_shutr cs1 co_shr_mode.CO_SHR_DRAIN
          (r2.1, [cs_event.evShutw cs.endp.flags co_shw_mode.CO_SHW_SILENT] ++ r2.2)) = _
    rw [h2d]
    rfl

/-- C4 witness: `cs_close` and `cs_drain_and_close` on a fresh mux-backed
conn-stream whose table has both capabilities: write-SILENT event first,
read event second, flags as claimed. -/
theorem cs_close_composite_order_witness :
    cs_close exCsMux =
      ({ exCsMux with endp := { exCsMux.endp with
          flags := exCsMux.endp.flags ||| CS_EP_SHWS ||| CS_EP_SHRR } },
       [cs_event.evShutw exCsMux.endp.flags co_shw_mode.CO_SHW_SILENT,
        cs_event.evShutr (exCsMux.endp.flags ||| CS_EP_SHWS) co_shr_mode.CO_SHR_RESET]) ∧
    cs_drain_and_close exCsMux =
      ({ exCsMux with endp := { exCsMux.endp with
          flags := exCsMux.endp.flags ||| CS_EP_SHWS ||| CS_EP_SHRD } },
       [cs_event.evShutw exCsMux.endp.flags co_shw_mode.CO_SHW_SILENT,
        cs_event.evShutr (exCsMux.endp.flags ||| CS_EP_SHWS) co_shr_mode.CO_SHR_DRAIN]) :=
  cs_close_composite_order exCsMux exMuxOps (by decide) rfl rfl
    (by decide) (by decide)

/-- C6: `cs_set_error` sets the confirmed-error flag when end of stream was
already observed and the pending-error flag otherwise; one call never newly
sets both, and every endpoint flag bit other than the two error bits is
left exactly as it was. -/
theorem cs_set_error_two_tier (cs : conn_stream) :
    (cs.endp.flags &&& CS_EP_EOS ≠ 0 →
      (cs_set_error cs).endp.flags = cs.endp.flags ||| CS_EP_ERROR) ∧
    (cs.endp.flags &&& CS_EP_EOS = 0 →
      (cs_set_error cs).endp.flags = cs.endp.flags ||| CS_EP_ERR_PENDING) ∧
    ¬(((cs_set_error cs).endp.flags &&& CS_EP_ERROR ≠ 0 ∧
        cs.endp.flags &&& CS_EP_ERROR = 0) ∧
      ((cs_set_error cs).endp.flags &&& CS_EP_ERR_PENDING ≠ 0 ∧
        cs.endp.flags &&& CS_EP_ERR_PENDING = 0)) ∧
    (∀ i, i ≠ 12 → i ≠ 13 →
      ((cs_set_error cs).endp.flags).testBit i = (cs.endp.flags).testBit i) := by
  by_cases h : cs.endp.flags &&& CS_EP_EOS ≠ 0
  · have he : (cs_set_error cs).endp.flags = cs.endp.flags ||| CS_EP_ERROR := by
      unfold cs_set_error
      rw [if_pos h]
    refine ⟨fun _ => he, fun hz => absurd hz h, fun hboth => ?_, fun i h12 h13 => ?_⟩
    · have hp : (cs_set_error cs).endp.flags &&& CS_EP_ERR_PENDING =
          cs.endp.flags &&& CS_EP_ERR_PENDING := by
        rw [he, or_and_of_disjoint _ _ _ (by decide)]
      rw [hp, hboth.2.2] at hboth
      exact hboth.2.1 rfl
    · rw [he, Nat.testBit_or]
      have hE : CS_EP_ERROR.testBit i = false := by
        have h2 : CS_EP_ERROR = 2 ^ 13 := by decide
        rw [h2, Nat.testBit_two_pow]
        exact decide_eq_false (fun hx => h13 hx.symm)
      rw [hE, Bool.or_false]
  · have hz : cs.endp.flags &&& CS_EP_EOS = 0 := not_not.mp h
    have he : (cs_set_error cs).endp.flags = cs.endp.flags ||| CS_EP_ERR_PENDING := by
      unfold cs_set_error
      rw [if_neg h]
    refine ⟨fun hx => absurd hz hx, fun _ => he, fun hboth => ?_, fun i h12 h13 => ?_⟩
    · have hp : (cs_set_error cs).endp.flags &&& CS_EP_ERROR =
          cs.endp.flags &&& CS_EP_ERROR := by
        rw [he, or_and_of_disjoint _ _ _ (by decide)]
      rw [hp, hboth.1.2] at hboth
      exact hboth.1.1 rfl
    · rw [he, Nat.testBit_or]
      have hE : CS_EP_ERR_PENDING.testBit i = false := by
        have h2 : CS_EP_ERR_PENDING = 2 ^ 12 := by decide
        rw [h2, Nat.testBit_two_pow]
        exact decide_eq_false (fun hx => h12 hx.symm)
      rw [hE, Bool.or_false]

/-- C6 witness: the error transition with end of stream already seen and
without it, plus an untouched bit on each side. -/
theorem cs_set_error_two_tier_witness :
    (cs_set_error exCsEos).endp.flags = exCsEos.endp.flags ||| CS_EP_ERROR ∧
    (cs_set_error exCsMux).endp.flags = exCsMux.endp.flags ||| CS_EP_ERR_PENDING ∧
    ((cs_set_error exCsMux).endp.flags).testBit 0 = (exCsMux.endp.flags).testBit 0 := by
  exact ⟨(cs_set_error_two_tier exCsEos).1 (by decide),
    (cs_set_error_two_tier exCsMux).2.1 (by decide),
    (cs_set_error_two_tier exCsMux).2.2.2 0 (by decide) (by decide)⟩

/-- `eq_except_flags` composes. -/
lemma eq_except_flags_trans (a b c : conn_stream)
    (h1 : eq_except_flags a b) (h2 : eq_except_flags b c) :
    eq_except_flags a c :=
  ⟨h2.1.trans h1.1, h2.2.1.trans h1.2.1, h2.2.2.1.trans h1.2.2.1,
   h2.2.2.2.1.trans h1.2.2.2.1, h2.2.2.2.2.trans h1.2.2.2.2⟩

/-- `cs_shutr` changes at most the endpoint flags. -/
lemma cs_shutr_eq_except_flags (cs : conn_stream) (mode : co_shr_mode) :
    eq_except_flags cs (cs_shutr cs mode).1 := by
  unfold cs_shutr
  split
  · exact ⟨rfl, rfl, rfl, rfl, rfl⟩
  · exact ⟨rfl, rfl, rfl, rfl, rfl⟩

/-- `cs_shutw` changes at most the endpoint flags. -/
lemma cs_shutw_eq_except_flags (cs : conn_stream) (mode : co_shw_mode) :
    eq_except_flags cs (cs_shutw cs mode).1 := by
  unfold cs_shutw
  split
  · exact ⟨rfl, rfl, rfl, rfl, rfl⟩
  · exact ⟨rfl, rfl, rfl, rfl, rfl⟩

/-- C9: `cs_shutr`, `cs_shutw`, `cs_close`, `cs_drain_and_close` and
`cs_set_error` modify at most the endpoint descriptor's flags: endpoint
target and ctx pointers, the application back-reference (and so its type
tag), the data-callback reference and the stream-interface field are all
unchanged. -/
theorem cs_ops_modify_only_flags (cs : conn_stream) (rmode : co_shr_mode)
    (wmode : co_shw_mode) :
    eq_except_flags cs (cs_shutr cs rmode).1 ∧
    eq_except_flags cs (cs_shutw cs wmode).1 ∧
    eq_except_flags cs (cs_close cs).1 ∧
    eq_except_flags cs (cs_drain_and_close cs).1 ∧
    eq_except_flags cs (cs_set_error cs) := by
  refine ⟨cs_shutr_eq_except_flags cs rmode, cs_shutw_eq_except_flags cs wmode,
    ?_, ?_, ?_⟩
  · exact eq_except_flags_trans _ _ _
      (cs_shutw_eq_except_flags cs co_shw_mode.CO_SHW_SILENT)
      (cs_shutr_eq_except_flags _ co_shr_mode.CO_SHR_RESET)
  · exact eq_except_flags_trans _ _ _
      (cs_shutw_eq_except_flags cs co_shw_mode.CO_SHW_SILENT)
      (cs_shutr_eq_except_flags _ co_shr_mode.CO_SHR_DRAIN)
  · unfold cs_set_error
    split
    · exact ⟨rfl, rfl, rfl, rfl, rfl⟩
    · exact ⟨rfl, rfl, rfl, rfl, rfl⟩
